import Mathlib

/-!
Verification of the doubao_api client library (doubao_api.cpp) against its
specification. The development shallowly embeds the sources: the sentinel
error strings, the bounded-retry policy `sendHttpRequestWithRetry`, the
chunked-transfer framing and body extraction of `sendHttpRequest`, the
pre-flight validation `validateConfig`, the payload builder `buildPayload`
and the entry points `getGPTAnswer` / `getGPTAnswer_urlimg`. Byte strings
are modelled as `List Char`; the Arduino `String` results of the retry layer
as Lean `String`; the `float` temperature as `Rat` (only order comparisons
and fixed two-decimal printing occur in the source). The network is an
oracle: for the retry policy a map from attempt index to the result of that
attempt, for the transport a record of connection success and the bytes read.
-/

/-- Error code `"<network_error>"` (doubao_api.cpp line 5). -/
def ERROR_NETWORK : String := "<network_error>"

/-- Error code `"<camera_error>"` (doubao_api.cpp line 6). -/
def ERROR_CAMERA : String := "<camera_error>"

/-- Error code `"<image_too_large>"` (doubao_api.cpp line 7). -/
def ERROR_IMAGE_TOO_LARGE : String := "<image_too_large>"

/-- Error code `"<invalid_input>"` (doubao_api.cpp line 8). -/
def ERROR_INVALID_INPUT : String := "<invalid_input>"

/-- Error code `"<json_parse_error>"` (doubao_api.cpp line 9). -/
def ERROR_JSON_PARSE : String := "<json_parse_error>"

/-- Error code `"<timeout_error>"` (doubao_api.cpp line 10). -/
def ERROR_TIMEOUT : String := "<timeout_error>"

/-- Loop body of `sendHttpRequestWithRetry` (doubao_api.cpp lines 94-105).
The transport is the oracle `t` mapping the attempt index to the string that
attempt's `sendHttpRequest` returns. `i` is the current attempt index, `last`
the value of the C++ variable `result` before the attempt (initially the
default-constructed empty string), `inv` the number of transport invocations
so far, `d` the total backoff delay slept so far in milliseconds, and the
final argument the number of loop iterations left (`maxRetries - i`). The
result is the returned string together with the final invocation count and
total backoff delay. The delay before the next attempt is `1000 * (i + 1)`
ms and is slept only when `i < maxRetries - 1`, i.e. when further iterations
remain. -/
def retryAux (t : Nat → String) (i : Nat) (last : String) (inv d : Nat) :
    Nat → String × Nat × Nat
  | 0 => (last, inv, d)
  | r + 1 =>
    if t i = ERROR_NETWORK ∨ t i = ERROR_TIMEOUT then
      retryAux t (i + 1) (t i) (inv + 1) (if r = 0 then d else d + 1000 * (i + 1)) r
    else (t i, inv + 1, d)

/-- Model of `sendHttpRequestWithRetry` (doubao_api.cpp lines 92-107),
instrumented with the transport invocation count and the total backoff delay.
`maxRetries` is the C++ `int` argument: when it is non-positive the `for`
loop body never runs and the default-constructed `result` (the empty string)
is returned. -/
def sendHttpRequestWithRetry (t : Nat → String) (maxRetries : Int) :
    String × Nat × Nat :=
  retryAux t 0 "" 0 0 maxRetries.toNat

/-- Chunk split performed by the transmit loop of `sendHttpRequest`
(doubao_api.cpp lines 47-59): while bytes remain, the next chunk is the next
`min 4096 remaining` bytes of the payload (`payload.substring(sent,
sent + currentChunkSize)`). -/
def chunksOf {α : Type} (l : List α) : List (List α) :=
  if l.length = 0 then [] else l.take 4096 :: chunksOf (l.drop 4096)
termination_by l.length
decreasing_by simp only [List.length_drop]; omega

/-- Hexadecimal digit as printed by Arduino `String(n, HEX)` (lowercase). -/
def hexDigitChar (n : Nat) : Char :=
  if n < 10 then Char.ofNat (48 + n) else Char.ofNat (87 + n)

/-- Accumulator loop producing the hexadecimal digits of `n`, most
significant first. -/
def hexCore (n : Nat) (acc : List Char) : List Char :=
  if n = 0 then acc else hexCore (n / 16) (hexDigitChar (n % 16) :: acc)
termination_by n
decreasing_by exact Nat.div_lt_self (by omega) (by omega)

/-- Hexadecimal rendering of `n`, as `String(n, HEX)` produces for the chunk
size line (doubao_api.cpp line 53). -/
def hexStr (n : Nat) : List Char :=
  if n = 0 then ['0'] else hexCore n []

/-- Line terminator used by the chunked framing. -/
def crlf : List Char := ['\r', '\n']

/-- Wire bytes of one data chunk (doubao_api.cpp lines 53-56): the chunk
size in hexadecimal, a CRLF, the chunk bytes, a CRLF. -/
def frameChunk (chunk : List Char) : List Char :=
  hexStr chunk.length ++ crlf ++ chunk ++ crlf

/-- Terminating zero-length chunk marker `"0\r\n\r\n"` (doubao_api.cpp
line 60). -/
def zeroChunkMarker : List Char := '0' :: '\r' :: '\n' :: '\r' :: '\n' :: []

/-- Full chunked-transfer request body written by `sendHttpRequest` after
the headers (doubao_api.cpp lines 47-60): every chunk framed in
transmission order, then the terminating zero-length chunk marker. -/
def chunkedBody (payload : List Char) : List Char :=
  ((chunksOf payload).map frameChunk).flatten ++ zeroChunkMarker

/-- Test whether the bytes start with the CRLFCRLF sequence. -/
def startsWithCRLFCRLF : List Char → Bool
  | '\r' :: '\n' :: '\r' :: '\n' :: _ => true
  | _ => false

/-- Index of the first occurrence of the CRLFCRLF sequence, as Arduino
`response.indexOf("\r\n\r\n")` computes it (`none` models the `-1` result). -/
def idxCRLFCRLF : List Char → Option Nat
  | [] => none
  | c :: rest =>
    if startsWithCRLFCRLF (c :: rest) then some 0
    else (idxCRLFCRLF rest).map (· + 1)

/-- Body extraction of `sendHttpRequest` (doubao_api.cpp lines 71-74):
`jsonStart = response.indexOf("\r\n\r\n"); if (jsonStart > 0) response =
response.substring(jsonStart + 4);`. Note the strict `> 0` comparison: both
the not-found case (`-1`) and a boundary at index 0 leave the response
unchanged. -/
def extractBody (response : List Char) : List Char :=
  match idxCRLFCRLF response with
  | some j => if 0 < j then response.drop (j + 4) else response
  | none => response

/-- Network oracle for one transport attempt: whether the TLS connection to
the fixed host succeeds, and the response bytes accumulated by the read loop
before the deadline or connection close. -/
structure NetworkBehavior where
  connectOk : Bool
  response : List Char

/-- Classified result of one transport attempt (the spec's
`TransientOutcome`): the source signals these as sentinel strings in the
return channel, with `success body` carried as the body text itself. -/
inductive Outcome where
  | success : List Char → Outcome
  | networkFailure : Outcome
  | timeoutFailure : Outcome
  | parseFailure : Outcome

/-- Fixed HTTP request line and headers written before the chunked body
(doubao_api.cpp lines 39-46). -/
def requestHead (apiKey : List Char) : List Char :=
  ("POST /api/v3/chat/completions HTTP/1.1\r\n".toList ++
    "Host: ark.cn-beijing.volces.com\r\n".toList ++
    "Content-Type: application/json\r\n".toList ++
    "Authorization: Bearer ".toList) ++ apiKey ++
    ("\r\nTransfer-Encoding: chunked\r\n".toList ++
      "Connection: close\r\n\r\n".toList)

/-- Model of `sendHttpRequest` (doubao_api.cpp lines 31-90): on connection
failure return `networkFailure` with no bytes written; otherwise write the
headers and the chunked body, then classify by the bytes read: none within
the deadline gives `timeoutFailure`; otherwise the body after the header
boundary is handed to the JSON extraction `extract` (the external
ArduinoJson step producing `choices[0].message.content`), whose failure
gives `parseFailure` and whose success gives `success content`. The second
component is the bytes written to the socket. -/
def sendHttpRequest (extract : List Char → Option (List Char))
    (net : NetworkBehavior) (payload apiKey : List Char) :
    Outcome × List Char :=
  if net.connectOk = false then (Outcome.networkFailure, [])
  else
    let writes := requestHead apiKey ++ chunkedBody payload
    if 0 < net.response.length then
      match extract (extractBody net.response) with
      | some content => (Outcome.success content, writes)
      | none => (Outcome.parseFailure, writes)
    else (Outcome.timeoutFailure, writes)

/-- Decimal digit character. -/
def digitChar (n : Nat) : Char := Char.ofNat (48 + n)

/-- Fueled accumulator loop producing the decimal digits of `n`, most
significant first (fuel `f` bounds the digit count). -/
def natStrAux : Nat → Nat → List Char → List Char
  | 0, _, acc => acc
  | f + 1, n, acc =>
    if n = 0 then acc else natStrAux f (n / 10) (digitChar (n % 10) :: acc)

/-- Decimal rendering of a natural number. -/
def natStr (n : Nat) : List Char := if n = 0 then ['0'] else natStrAux n n []

/-- Model of the Arduino `String(float)` conversion used for the
`"temperature"` field (doubao_api.cpp line 127): fixed two-decimal
rendering with rounding, e.g. `0.5 ↦ "0.50"`. -/
def floatTwoDec (t : Rat) : List Char :=
  (if t < 0 then ['-'] else []) ++
    natStr (((abs t) * 100 + 1 / 2).floor.toNat / 100) ++
    '.' :: digitChar (((abs t) * 100 + 1 / 2).floor.toNat % 100 / 10) ::
      digitChar (((abs t) * 100 + 1 / 2).floor.toNat % 100 % 10) :: []

/-- Model of `validateConfig` (doubao_api.cpp lines 15-29): the API key and
model id must be non-empty and the temperature must lie in the closed
interval `[0, 1]`. The `apiKey == nullptr` check of the source is subsumed
by the empty-key check. -/
def validateConfig (apiKey : List Char) (modelId : List Char) (temp : Rat) :
    Bool :=
  if apiKey.length = 0 then false
  else if modelId.length = 0 then false
  else if temp < 0 ∨ 1 < temp then false
  else true

/-- Model of `buildPayload` (doubao_api.cpp lines 109-130): raw string
concatenation of the JSON request template, with the optional base64 image
entry inserted exactly when `base64Image` is neither empty nor `"NULL"`.
No escaping of the interpolated strings is performed, as in the source. -/
def buildPayload (inputText modelId systemPrompt : List Char) (temp : Rat)
    (base64Image imageFormat : List Char) : List Char :=
  "\x7b\"model\":\"".toList ++ modelId ++
    "\",\"messages\":[\x7b\"role\":\"system\",\"content\":\"".toList ++
    systemPrompt ++
    "\"\x7d,\x7b\"role\":\"user\",\"content\":[".toList ++
    (if base64Image ≠ [] ∧ base64Image ≠ "NULL".toList then
      "\x7b\"type\":\"image_url\",\"image_url\":\x7b\"url\":\"data:image/".toList ++
        imageFormat ++ ";base64,".toList ++ base64Image ++ "\"\x7d\x7d,".toList
    else []) ++
    "\x7b\"type\":\"text\",\"text\":\"".toList ++ inputText ++
    "\"\x7d]\x7d],\"temperature\":".toList ++ floatTwoDec temp ++ "\x7d".toList

/-- Model of `getGPTAnswer` (doubao_api.cpp lines 132-143), instrumented
like the retry policy: the transport oracle `t` maps the payload and the
attempt index to that attempt's result, and the second and third components
count transport invocations and total backoff delay. The call uses the
default `maxRetries = 3` of the header. -/
def getGPTAnswer (t : List Char → Nat → String)
    (inputText apiKey modelId systemPrompt : List Char) (temp : Rat) :
    String × Nat × Nat :=
  if validateConfig apiKey modelId temp = false then (ERROR_INVALID_INPUT, 0, 0)
  else if inputText.length = 0 then (ERROR_INVALID_INPUT, 0, 0)
  else
    sendHttpRequestWithRetry
      (t (buildPayload inputText modelId systemPrompt temp [] [])) 3

/-- Model of `getGPTAnswer_urlimg` (doubao_api.cpp lines 145-169): the
image-URL entry point builds its payload inline and checks only that the
input text is non-empty — it never calls `validateConfig`. -/
def getGPTAnswer_urlimg (t : List Char → Nat → String)
    (inputText imageUrl _apiKey modelId systemPrompt : List Char) (temp : Rat) :
    String × Nat × Nat :=
  if inputText.length = 0 then (ERROR_INVALID_INPUT, 0, 0)
  else
    sendHttpRequestWithRetry
      (t ("\x7b\"model\":\"".toList ++ modelId ++
        "\",\"messages\":[\x7b\"role\":\"system\",\"content\":\"".toList ++
        systemPrompt ++ "\"\x7d,".toList ++
        (if imageUrl ≠ [] then
          "\x7b\"role\":\"user\",\"content\":[\x7b\"type\":\"image_url\",\"image_url\":\x7b\"url\":\"".toList ++
            imageUrl ++ "\"\x7d\x7d,\x7b\"type\":\"text\",\"text\":\"".toList ++
            inputText ++ "\"\x7d]\x7d".toList
        else
          "\x7b\"role\":\"user\",\"content\":\"".toList ++ inputText ++
            "\"\x7d".toList) ++
        "],\"temperature\":".toList ++ floatTwoDec temp ++ "\x7d".toList)) 3

/-- JSON document tree produced by the parsing layer. Modelled from the spec:
the JSON library is an external collaborator (ArduinoJson in the source), so
this development models the document shape the spec's payload grammar uses —
strings, raw numeral tokens, arrays and objects. -/
inductive Json where
  | jstr : List Char → Json
  | jnum : List Char → Json
  | jarr : List Json → Json
  | jobj : List (List Char × Json) → Json

/-- Characters that can start a JSON numeral token. -/
def numStart (c : Char) : Bool := c.isDigit || c = '-'

/-- Characters of the JSON numeral tokens this client emits (digits, sign,
decimal point). -/
def numChar (c : Char) : Bool := c.isDigit || c = '-' || c = '.'

/-- Decoding of a single JSON string escape (after a backslash). -/
def unescapeChar (e : Char) : Option Char :=
  if e = '"' then some '"'
  else if e = '\\' then some '\\'
  else if e = '/' then some '/'
  else if e = 'n' then some '\n'
  else if e = 't' then some '\t'
  else if e = 'r' then some '\r'
  else if e = 'b' then some (Char.ofNat 8)
  else if e = 'f' then some (Char.ofNat 12)
  else none

mutual
/-- Modelled from the spec: body of a JSON string after its opening quote,
as the external JSON library reads it — characters up to the closing quote,
with backslash escapes decoded by `unescapeChar`. -/
def parseStringBody : List Char → Option (List Char × List Char)
  | [] => none
  | c :: rest =>
    if c = '"' then some ([], rest)
    else if c = '\\' then parseEscape rest
    else (parseStringBody rest).map (fun sr => (c :: sr.1, sr.2))

def parseEscape : List Char → Option (List Char × List Char)
  | [] => none
  | e :: rest2 =>
    match unescapeChar e with
    | none => none
    | some d => (parseStringBody rest2).map (fun sr => (d :: sr.1, sr.2))
end

mutual
/-- Modelled from the spec: recursive-descent JSON value parser standing in
for the external ArduinoJson `deserializeJson`, on the whitespace-free JSON
this client produces and consumes. The fuel argument bounds the recursion
(the external library likewise enforces a nesting limit); every result pairs
the parsed value with the unconsumed input. -/
def parseJson : Nat → List Char → Option (Json × List Char)
  | 0, _ => none
  | _ + 1, [] => none
  | f + 1, c :: rest =>
    if c = '"' then (parseStringBody rest).map (fun sr => (Json.jstr sr.1, sr.2))
    else if c = '[' then parseArrayBody f rest
    else if c = '\x7b' then parseObjectBody f rest
    else if numStart c then
      some (Json.jnum ((c :: rest).takeWhile numChar),
        (c :: rest).dropWhile numChar)
    else none

def parseArrayBody : Nat → List Char → Option (Json × List Char)
  | 0, _ => none
  | _ + 1, [] => none
  | f + 1, c :: rest =>
    if c = ']' then some (Json.jarr [], rest)
    else
      match parseJson f (c :: rest) with
      | none => none
      | some (v, r1) =>
        match parseArrayTail f r1 with
        | none => none
        | some (vs, r2) => some (Json.jarr (v :: vs), r2)

def parseArrayTail : Nat → List Char → Option (List Json × List Char)
  | 0, _ => none
  | _ + 1, [] => none
  | f + 1, c :: rest =>
    if c = ']' then some ([], rest)
    else if c = ',' then
      match parseJson f rest with
      | none => none
      | some (v, r1) =>
        match parseArrayTail f r1 with
        | none => none
        | some (vs, r2) => some (v :: vs, r2)
    else none

def parseObjectBody : Nat → List Char → Option (Json × List Char)
  | 0, _ => none
  | _ + 1, [] => none
  | f + 1, c :: rest =>
    if c = '\x7d' then some (Json.jobj [], rest)
    else
      match parseField f (c :: rest) with
      | none => none
      | some (kv, r1) =>
        match parseObjectTail f r1 with
        | none => none
        | some (kvs, r2) => some (Json.jobj (kv :: kvs), r2)

def parseObjectTail : Nat → List Char → Option (List (List Char × Json) × List Char)
  | 0, _ => none
  | _ + 1, [] => none
  | f + 1, c :: rest =>
    if c = '\x7d' then some ([], rest)
    else if c = ',' then
      match parseField f rest with
      | none => none
      | some (kv, r1) =>
        match parseObjectTail f r1 with
        | none => none
        | some (kvs, r2) => some (kv :: kvs, r2)
    else none

def parseField : Nat → List Char → Option ((List Char × Json) × List Char)
  | 0, _ => none
  | _ + 1, [] => none
  | f + 1, c :: rest =>
    if c = '"' then
      match parseStringBody rest with
      | none => none
      | some (key, r1) =>
        match r1 with
        | ':' :: r2 =>
          match parseJson f r2 with
          | none => none
          | some (v, r3) => some ((key, v), r3)
        | _ => none
    else none
end

/-- Modelled from the spec: the external JSON library's entry point — a
document parses iff a JSON value consumes the entire input (fuel 64 exceeds
any nesting this client's documents reach). -/
def deserializeJson (input : List Char) : Option Json :=
  match parseJson 64 input with
  | some (j, []) => some j
  | _ => none

/-- Strings that survive the source's escaping-free interpolation into the
JSON template: those containing no raw quote and no backslash. -/
def SafeStr (s : List Char) : Prop := ∀ c ∈ s, c ≠ '"' ∧ c ≠ '\\'

/-- JSON document that `buildPayload` spells out for a text-only request:
model id, a system message, a user message whose content is the one-element
text array, and the temperature. -/
def payloadAst (inputText modelId systemPrompt : List Char) (t : Rat) : Json :=
  Json.jobj [
    ("model".toList, Json.jstr modelId),
    ("messages".toList, Json.jarr [
      Json.jobj [("role".toList, Json.jstr ("system".toList)),
        ("content".toList, Json.jstr systemPrompt)],
      Json.jobj [("role".toList, Json.jstr ("user".toList)),
        ("content".toList, Json.jarr [Json.jobj
          [("type".toList, Json.jstr ("text".toList)),
           ("text".toList, Json.jstr inputText)]])]]),
    ("temperature".toList, Json.jnum (floatTwoDec t))]

/-- Object field lookup by key. -/
def Json.getField : Json → List Char → Option Json
  | Json.jobj kvs, key => (kvs.find? (fun kv => kv.1 == key)).map (fun kv => kv.2)
  | _, _ => none

/-- Array element lookup by index. -/
def Json.getIdx : Json → Nat → Option Json
  | Json.jarr vs, i => vs[i]?
  | _, _ => none

/-- Accessor for `messages[1].content` of a parsed payload document. -/
def contentOfSecondMessage (j : Json) : Option Json :=
  (j.getField ("messages".toList)).bind fun msgs =>
    (msgs.getIdx 1).bind fun msg => msg.getField ("content".toList)

lemma retryAux_all_transient (t : Nat → String) :
    ∀ r i (last : String) inv d, 1 ≤ r →
      (∀ j, j < r → t (i + j) = ERROR_NETWORK ∨ t (i + j) = ERROR_TIMEOUT) →
      (retryAux t i last inv d r).1 = t (i + r - 1) ∧
        (retryAux t i last inv d r).2.1 = inv + r := by
  intro r
  induction r with
  | zero => omega
  | succ r ih =>
    intro i last inv d _ h
    have h0 : t i = ERROR_NETWORK ∨ t i = ERROR_TIMEOUT := by
      have := h 0 (by omega)
      simpa using this
    by_cases hr : r = 0
    · subst hr
      simp [retryAux, h0]
    · have hr1 : 1 ≤ r := by omega
      have hrec := ih (i + 1) (t i) (inv + 1)
        (if r = 0 then d else d + 1000 * (i + 1)) hr1
        (fun j hj => by
          have := h (j + 1) (by omega)
          simpa [Nat.add_assoc, Nat.add_comm 1 j] using this)
      rw [retryAux, if_pos h0]
      refine ⟨?_, ?_⟩
      · rw [hrec.1]
        congr 1
        omega
      · rw [hrec.2]
        omega

lemma retryAux_at_least_one (t : Nat → String) (i : Nat) (last : String)
    (inv d r : Nat) (hr : 1 ≤ r) :
    inv + 1 ≤ (retryAux t i last inv d r).2.1 := by
  induction r generalizing i last inv d with
  | zero => omega
  | succ r ih =>
    rw [retryAux]
    by_cases h : t i = ERROR_NETWORK ∨ t i = ERROR_TIMEOUT
    · rw [if_pos h]
      by_cases hr0 : r = 0
      · subst hr0
        simp [retryAux]
      · have := ih (i + 1) (t i) (inv + 1) (if r = 0 then d else d + 1000 * (i + 1))
          (by omega)
        omega
    · rw [if_neg h]

/-- C3: with `maxRetries = 3`, a transport that returns `"<network_error>"`
on the first two attempts and a result classified as neither transient
failure on the third makes the retry policy return that third result,
perform exactly 3 transport invocations, and sleep a total backoff of
`1000 + 2000 = 3000` ms (the delay before attempt `i + 1` being
`1000 * (i + 1)` ms). -/
theorem retry_twoNetworkFailuresThenSuccess (t : Nat → String)
    (h0 : t 0 = ERROR_NETWORK) (h1 : t 1 = ERROR_NETWORK)
    (h2 : t 2 ≠ ERROR_NETWORK) (h2t : t 2 ≠ ERROR_TIMEOUT) :
    sendHttpRequestWithRetry t 3 = (t 2, 3, 3000) := by
  have e3 : (3 : Int).toNat = 2 + 1 := by decide
  rw [sendHttpRequestWithRetry, e3, retryAux, if_pos (Or.inl h0)]
  have e2 : (2 : Nat) = 1 + 1 := by decide
  rw [e2, retryAux, if_pos (Or.inl h1)]
  have e1 : (1 : Nat) = 0 + 1 := by decide
  rw [e1, retryAux, if_neg (by simp [h2, h2t])]
  norm_num

/-- Witness for C3 at a concrete transport. -/
theorem retry_twoNetworkFailuresThenSuccess_witness :
    sendHttpRequestWithRetry
      (fun i => if i < 2 then ERROR_NETWORK else "answer") 3 =
      ("answer", 3, 3000) :=
  retry_twoNetworkFailuresThenSuccess _ rfl rfl (by decide) (by decide)

/-- C4: whenever the first attempt's result is classified as non-transient
(neither `"<network_error>"` nor `"<timeout_error>"`, i.e. a success body or
`"<json_parse_error>"`), the retry policy returns it at once: exactly one
transport invocation and zero backoff delay, for any positive `maxRetries`. -/
theorem retry_nonTransientReturnsImmediately (t : Nat → String) (m : Int)
    (hm : 1 ≤ m) (hn : t 0 ≠ ERROR_NETWORK) (ht : t 0 ≠ ERROR_TIMEOUT) :
    sendHttpRequestWithRetry t m = (t 0, 1, 0) := by
  obtain ⟨k, hk⟩ : ∃ k, m.toNat = k + 1 := ⟨m.toNat - 1, by omega⟩
  rw [sendHttpRequestWithRetry, hk, retryAux, if_neg (by simp [hn, ht])]

/-- Witness for C4: `"<json_parse_error>"` on attempt 1 is returned with one
invocation and no backoff. -/
theorem retry_nonTransientReturnsImmediately_witness :
    sendHttpRequestWithRetry (fun _ => ERROR_JSON_PARSE) 3 =
      (ERROR_JSON_PARSE, 1, 0) :=
  retry_nonTransientReturnsImmediately _ 3 (by decide) (by decide) (by decide)

/-- C5: when every one of the `maxRetries` attempts produces a transient
failure string (`"<network_error>"` or `"<timeout_error>"`), the retry
policy performs exactly `maxRetries` invocations and returns the final
attempt's failure string unchanged — there is no distinct "retries
exhausted" value, so the result alone cannot distinguish a first-attempt
transient failure from a last-attempt one. -/
theorem retry_exhaustedReturnsLastFailure (t : Nat → String) (m : Int)
    (hm : 1 ≤ m)
    (h : ∀ j : Nat, (j : Int) < m → t j = ERROR_NETWORK ∨ t j = ERROR_TIMEOUT) :
    (sendHttpRequestWithRetry t m).1 = t (m.toNat - 1) ∧
      (sendHttpRequestWithRetry t m).2.1 = m.toNat := by
  have := retryAux_all_transient t m.toNat 0 "" 0 0 (by omega)
    (fun j hj => by
      have := h j (by omega)
      simpa using this)
  simpa [sendHttpRequestWithRetry] using this

/-- Witness for C5: two timeouts with `maxRetries = 2`. -/
theorem retry_exhaustedReturnsLastFailure_witness :
    (sendHttpRequestWithRetry (fun _ => ERROR_TIMEOUT) 2).1 = ERROR_TIMEOUT ∧
      (sendHttpRequestWithRetry (fun _ => ERROR_TIMEOUT) 2).2.1 = 2 :=
  retry_exhaustedReturnsLastFailure (fun _ => ERROR_TIMEOUT) 2 (by decide)
    (fun _ _ => Or.inr rfl)

/-- C10: invoking the retry policy with `maxRetries ≤ 0` performs zero
transport invocations, sleeps no backoff, and returns the empty string —
which is none of the six documented sentinel error codes (and, no transport
invocation having occurred, not a body the transport produced). -/
theorem retry_nonPositiveMaxRetries (t : Nat → String) (m : Int) (hm : m ≤ 0) :
    sendHttpRequestWithRetry t m = ("", 0, 0) ∧
      ("" : String) ≠ ERROR_NETWORK ∧ ("" : String) ≠ ERROR_CAMERA ∧
      ("" : String) ≠ ERROR_IMAGE_TOO_LARGE ∧
      ("" : String) ≠ ERROR_INVALID_INPUT ∧
      ("" : String) ≠ ERROR_JSON_PARSE ∧ ("" : String) ≠ ERROR_TIMEOUT := by
  have h0 : m.toNat = 0 := by omega
  rw [sendHttpRequestWithRetry, h0]
  exact ⟨rfl, by decide, by decide, by decide, by decide, by decide, by decide⟩

/-- Witness for C10 at `maxRetries = -2`. -/
theorem retry_nonPositiveMaxRetries_witness :
    sendHttpRequestWithRetry (fun _ => "body") (-2) = ("", 0, 0) ∧
      ("" : String) ≠ ERROR_NETWORK ∧ ("" : String) ≠ ERROR_CAMERA ∧
      ("" : String) ≠ ERROR_IMAGE_TOO_LARGE ∧
      ("" : String) ≠ ERROR_INVALID_INPUT ∧
      ("" : String) ≠ ERROR_JSON_PARSE ∧ ("" : String) ≠ ERROR_TIMEOUT :=
  retry_nonPositiveMaxRetries (fun _ => "body") (-2) (by decide)

/-- C1: the chunk split loses nothing and duplicates nothing — the
byte-lengths of the transmitted chunks sum to the payload length, and their
concatenation in transmission order is the payload itself. -/
theorem chunks_preservePayload {α : Type} (payload : List α) :
    ((chunksOf payload).map List.length).sum = payload.length ∧
      (chunksOf payload).flatten = payload := by
  induction payload using chunksOf.induct with
  | case1 l hl =>
    rw [chunksOf, if_pos hl]
    simp [List.length_eq_zero.mp hl]
  | case2 l hl ih =>
    rw [chunksOf, if_neg hl]
    refine ⟨?_, ?_⟩
    · simp only [List.map_cons, List.sum_cons, List.length_take,
        List.length_drop, ih.1]
      omega
    · simp only [List.flatten_cons, ih.2, List.take_append_drop]

lemma chunksOf_single {α : Type} (l : List α) (h0 : 0 < l.length)
    (h : l.length ≤ 4096) : chunksOf l = [l] := by
  rw [chunksOf, if_neg (by omega), List.take_of_length_le h,
    List.drop_eq_nil_of_le h, chunksOf]
  simp

lemma chunksOf_multiple {α : Type} :
    ∀ (k : Nat) (l : List α), l.length = 4096 * (k + 1) →
      ∃ pre last, chunksOf l = pre ++ [last] ∧ last.length = 4096 := by
  intro k
  induction k with
  | zero =>
    intro l hl
    refine ⟨[], l, ?_, by omega⟩
    rw [chunksOf_single l (by omega) (by omega)]
    simp
  | succ k ih =>
    intro l hl
    obtain ⟨pre, last, hpre, hlast⟩ := ih (l.drop 4096) (by simp; omega)
    refine ⟨l.take 4096 :: pre, last, ?_, hlast⟩
    rw [chunksOf, if_neg (by omega), hpre]
    simp

/-- C2: a non-empty payload shorter than 4096 bytes is sent as exactly one
chunk; and a payload whose length is a positive multiple of 4096 ends with a
data chunk of exactly 4096 bytes whose frame is immediately followed on the
wire by the terminating zero-length chunk marker. -/
theorem chunking_boundaries (payload : List Char) :
    (0 < payload.length → payload.length < 4096 → chunksOf payload = [payload]) ∧
      (∀ k : Nat, 0 < k → payload.length = 4096 * k →
        ∃ pre last, chunksOf payload = pre ++ [last] ∧ last.length = 4096 ∧
          chunkedBody payload =
            (pre.map frameChunk).flatten ++ (frameChunk last ++ zeroChunkMarker)) := by
  refine ⟨fun h0 h1 => chunksOf_single payload h0 (by omega), ?_⟩
  intro k hk hlen
  obtain ⟨k', rfl⟩ : ∃ k', k = k' + 1 := ⟨k - 1, by omega⟩
  obtain ⟨pre, last, hpre, hlast⟩ := chunksOf_multiple k' payload hlen
  refine ⟨pre, last, hpre, hlast, ?_⟩
  rw [chunkedBody, hpre]
  simp [List.append_assoc]

/-- Witness for C2: a one-byte payload gives one chunk; a 4096-byte payload
ends with a full 4096-byte chunk followed by the zero-chunk marker. -/
theorem chunking_boundaries_witness :
    chunksOf ['a'] = [['a']] ∧
      (∃ pre last, chunksOf (List.replicate 4096 'a') = pre ++ [last] ∧
        last.length = 4096 ∧
        chunkedBody (List.replicate 4096 'a') =
          (pre.map frameChunk).flatten ++ (frameChunk last ++ zeroChunkMarker)) :=
  ⟨(chunking_boundaries ['a']).1 (by decide) (by decide),
   (chunking_boundaries (List.replicate 4096 'a')).2 1 (by decide)
      (by simp only [List.length_replicate, Nat.mul_one])⟩

/-- C6 (amended): for a non-empty response, when the first CRLFCRLF occurs
at a positive index `j`, everything up to and including it is discarded
(body = bytes from `j + 4` on); when there is no CRLFCRLF at all, or when
its first occurrence is at index 0, the whole response is kept as the body. -/
theorem extractBody_boundary (r : List Char) (_hr : r ≠ []) :
    (∀ j, idxCRLFCRLF r = some j → 0 < j → extractBody r = r.drop (j + 4)) ∧
      (idxCRLFCRLF r = none → extractBody r = r) ∧
      (idxCRLFCRLF r = some 0 → extractBody r = r) := by
  refine ⟨fun j hj h0 => ?_, fun hn => ?_, fun h0 => ?_⟩
  · rw [extractBody, hj]
    simp [h0]
  · rw [extractBody, hn]
  · rw [extractBody, h0]
    simp

/-- Witness for C6 at a concrete response with the boundary at index 1. -/
theorem extractBody_boundary_witness :
    idxCRLFCRLF ('h' :: '\r' :: '\n' :: '\r' :: '\n' :: 'b' :: []) = some 1 ∧
      extractBody ('h' :: '\r' :: '\n' :: '\r' :: '\n' :: 'b' :: []) = ['b'] :=
  ⟨rfl,
    (extractBody_boundary ('h' :: '\r' :: '\n' :: '\r' :: '\n' :: 'b' :: [])
      (by decide)).1 1 rfl (by decide)⟩

/-- Counterexample to C6 as stated: a response that begins with CRLFCRLF has
a first occurrence (at index 0), yet the extraction step keeps the whole
response instead of discarding through the boundary, because the source
compares `jsonStart > 0` rather than `jsonStart >= 0`. -/
theorem extractBody_counterexample :
    idxCRLFCRLF ('\r' :: '\n' :: '\r' :: '\n' :: 'x' :: []) = some 0 ∧
      extractBody ('\r' :: '\n' :: '\r' :: '\n' :: 'x' :: []) =
        '\r' :: '\n' :: '\r' :: '\n' :: 'x' :: [] ∧
      ('\r' :: '\n' :: '\r' :: '\n' :: 'x' :: []).drop (0 + 4) = ['x'] ∧
      extractBody ('\r' :: '\n' :: '\r' :: '\n' :: 'x' :: []) ≠
        ('\r' :: '\n' :: '\r' :: '\n' :: 'x' :: []).drop (0 + 4) :=
  ⟨rfl, rfl, rfl, by decide⟩

/-- C8: the transport returns `networkFailure` exactly when the connection
fails — and then writes no request bytes — and returns `timeoutFailure`
exactly when the connection succeeds but zero response bytes are read before
the deadline. -/
theorem transport_failureClassification
    (extract : List Char → Option (List Char)) (net : NetworkBehavior)
    (payload apiKey : List Char) :
    ((sendHttpRequest extract net payload apiKey).1 = Outcome.networkFailure ↔
        net.connectOk = false) ∧
      (net.connectOk = false →
        (sendHttpRequest extract net payload apiKey).2 = []) ∧
      ((sendHttpRequest extract net payload apiKey).1 = Outcome.timeoutFailure ↔
        net.connectOk = true ∧ net.response = []) := by
  obtain ⟨ok, resp⟩ := net
  cases ok with
  | false => simp [sendHttpRequest]
  | true =>
    cases resp with
    | nil => simp [sendHttpRequest]
    | cons c rest =>
      cases h : extract (extractBody (c :: rest)) with
      | none => simp [sendHttpRequest, h]
      | some content => simp [sendHttpRequest, h]

/-- C7 (amended): the text entry point `getGPTAnswer` rejects a temperature
outside `[0, 1]` with `"<invalid_input>"` before any transport invocation
(zero invocations, zero backoff); the image-URL entry point
`getGPTAnswer_urlimg`, however, performs no temperature validation — with a
non-empty input text it always invokes the transport at least once. -/
theorem temperatureValidation (t : List Char → Nat → String)
    (inputText imageUrl apiKey modelId systemPrompt : List Char) (temp : Rat)
    (htemp : temp < 0 ∨ 1 < temp) :
    getGPTAnswer t inputText apiKey modelId systemPrompt temp =
      (ERROR_INVALID_INPUT, 0, 0) ∧
      (inputText.length ≠ 0 →
        1 ≤ (getGPTAnswer_urlimg t inputText imageUrl apiKey modelId
          systemPrompt temp).2.1) := by
  have hv : validateConfig apiKey modelId temp = false := by
    rw [validateConfig]
    split_ifs <;> rfl
  refine ⟨?_, fun hne => ?_⟩
  · rw [getGPTAnswer, if_pos hv]
  · rw [getGPTAnswer_urlimg, if_neg hne]
    exact retryAux_at_least_one _ 0 "" 0 0 (3 : Int).toNat (by decide)

/-- Witness for C7 at `temp = -1`. -/
theorem temperatureValidation_witness :
    getGPTAnswer (fun _ _ => "ok") ("hi".toList) ("key".toList) ("m".toList)
        ("p".toList) (-1) = (ERROR_INVALID_INPUT, 0, 0) ∧
      (("hi".toList).length ≠ 0 →
        1 ≤ (getGPTAnswer_urlimg (fun _ _ => "ok") ("hi".toList)
          ("http://img".toList) ("key".toList) ("m".toList) ("p".toList)
          (-1)).2.1) :=
  temperatureValidation (fun _ _ => "ok") ("hi".toList) ("http://img".toList)
    ("key".toList) ("m".toList) ("p".toList) (-1) (Or.inl (by decide))

/-- Counterexample to C7 as stated: `getGPTAnswer_urlimg` called with the
out-of-range temperature `1.1` does not return `"<invalid_input>"` and
performs a transport invocation — pre-flight temperature validation does not
protect every entry point that triggers a request. -/
theorem temperatureValidation_counterexample :
    (1 : Rat) < 11 / 10 ∧
      (getGPTAnswer_urlimg (fun _ _ => "ok") ("hi".toList) ("http://img".toList)
        ("key".toList) ("m".toList) ("p".toList) (11 / 10)).2.1 = 1 ∧
      (getGPTAnswer_urlimg (fun _ _ => "ok") ("hi".toList) ("http://img".toList)
        ("key".toList) ("m".toList) ("p".toList) (11 / 10)).1 ≠
        ERROR_INVALID_INPUT := by
  refine ⟨by norm_num, rfl, by decide⟩

/-- A quote- and backslash-free string followed by a closing quote parses
back to itself. -/
lemma parseStringBody_safe (s : List Char) (hs : SafeStr s) :
    ∀ rest, parseStringBody (s ++ '"' :: rest) = some (s, rest) := by
  induction s with
  | nil => intro rest; simp [parseStringBody]
  | cons c s ih =>
    intro rest
    have hc := hs c (by simp)
    have ihs : SafeStr s := fun x hx => hs x (by simp [hx])
    simp [parseStringBody, hc.1, hc.2, ih ihs]

lemma takeWhile_append_all (q : Char → Bool) :
    ∀ (s : List Char) (c : Char) (r : List Char),
      (∀ x ∈ s, q x = true) → q c = false →
      (s ++ c :: r).takeWhile q = s ∧ (s ++ c :: r).dropWhile q = c :: r := by
  intro s
  induction s with
  | nil =>
    intro c r _ hc
    simp [List.takeWhile, List.dropWhile, hc]
  | cons a s ih =>
    intro c r hall hc
    have ha : q a = true := hall a (by simp)
    have hs : ∀ x ∈ s, q x = true := fun x hx => hall x (by simp [hx])
    have := ih c r hs hc
    simp [List.takeWhile, List.dropWhile, ha, this.1, this.2]

lemma digitChar_isDigit (n : Nat) (h : n < 10) : (digitChar n).isDigit = true := by
  interval_cases n <;> decide

lemma natStrAux_digits :
    ∀ (f n : Nat) (acc : List Char), (∀ x ∈ acc, x.isDigit = true) →
      ∀ x ∈ natStrAux f n acc, x.isDigit = true := by
  intro f
  induction f with
  | zero => intro n acc hacc; simpa [natStrAux] using hacc
  | succ f ih =>
    intro n acc hacc x hx
    rw [natStrAux] at hx
    by_cases hn : n = 0
    · rw [if_pos hn] at hx
      exact hacc x hx
    · rw [if_neg hn] at hx
      refine ih (n / 10) _ (fun y hy => ?_) x hx
      rcases List.mem_cons.mp hy with h | h
      · subst h
        exact digitChar_isDigit _ (Nat.mod_lt _ (by omega))
      · exact hacc y h

lemma natStr_digits (n : Nat) : ∀ x ∈ natStr n, x.isDigit = true := by
  rw [natStr]
  by_cases hn : n = 0
  · rw [if_pos hn]
    intro x hx
    simp at hx
    subst hx
    decide
  · rw [if_neg hn]
    exact natStrAux_digits n n [] (by simp)

lemma natStrAux_ne_nil :
    ∀ (f n : Nat) (acc : List Char), acc ≠ [] → natStrAux f n acc ≠ [] := by
  intro f
  induction f with
  | zero => intro n acc hacc; simpa [natStrAux] using hacc
  | succ f ih =>
    intro n acc hacc
    rw [natStrAux]
    by_cases hn : n = 0
    · rw [if_pos hn]; exact hacc
    · rw [if_neg hn]
      exact ih (n / 10) _ (by simp)

lemma natStr_ne_nil (n : Nat) : natStr n ≠ [] := by
  rw [natStr]
  by_cases hn : n = 0
  · rw [if_pos hn]; simp
  · rw [if_neg hn]
    obtain ⟨f, rfl⟩ : ∃ f, n = f + 1 := ⟨n - 1, by omega⟩
    rw [natStrAux, if_neg hn]
    exact natStrAux_ne_nil f _ _ (by simp)

lemma decimal_shape (neg : Bool) (q a b : Nat) (ha : a < 10) (hb : b < 10) :
    ∃ c s0, (if neg = true then ['-'] else []) ++ natStr q ++
        '.' :: digitChar a :: digitChar b :: [] = c :: s0 ∧
      numStart c = true ∧ ∀ x ∈ c :: s0, numChar x = true := by
  have hdig : ∀ x ∈ natStr q ++ '.' :: digitChar a :: digitChar b :: [],
      numChar x = true := by
    intro x hx
    rcases List.mem_append.mp hx with h | h
    · simp [numChar, natStr_digits q x h]
    · rcases List.mem_cons.mp h with h1 | h1
      · subst h1; decide
      · rcases List.mem_cons.mp h1 with h2 | h2
        · subst h2
          simp [numChar, digitChar_isDigit a ha]
        · rcases List.mem_cons.mp h2 with h3 | h3
          · subst h3
            simp [numChar, digitChar_isDigit b hb]
          · simp at h3
  cases neg with
  | true =>
    refine ⟨'-', natStr q ++ '.' :: digitChar a :: digitChar b :: [],
      by simp, by decide, ?_⟩
    intro x hx
    rcases List.mem_cons.mp hx with h | h
    · subst h; decide
    · exact hdig x h
  | false =>
    obtain ⟨c, s1, hcs⟩ := List.exists_cons_of_ne_nil (natStr_ne_nil q)
    refine ⟨c, s1 ++ '.' :: digitChar a :: digitChar b :: [], ?_, ?_, ?_⟩
    · rw [hcs]
      simp
    · have hc : c.isDigit = true := natStr_digits q c (by rw [hcs]; simp)
      simp [numStart, hc]
    · intro x hx
      have : x ∈ natStr q ++ '.' :: digitChar a :: digitChar b :: [] := by
        rw [hcs]
        rcases List.mem_cons.mp hx with h | h
        · simp [h]
        · rcases List.mem_append.mp h with h1 | h1
          · simp [h1]
          · simp [List.mem_append, h1]
      exact hdig x this

lemma floatTwoDec_shape (t : Rat) :
    ∃ c s0, floatTwoDec t = c :: s0 ∧ numStart c = true ∧
      ∀ x ∈ c :: s0, numChar x = true := by
  have := decimal_shape (decide (t < 0)) (((abs t) * 100 + 1 / 2).floor.toNat / 100)
    (((abs t) * 100 + 1 / 2).floor.toNat % 100 / 10)
    (((abs t) * 100 + 1 / 2).floor.toNat % 100 % 10) (by omega) (by omega)
  obtain ⟨c, s0, heq, hstart, hall⟩ := this
  refine ⟨c, s0, ?_, hstart, hall⟩
  rw [floatTwoDec, ← heq]
  by_cases ht : t < 0 <;> simp [ht]

lemma parseJson_float (f : Nat) (t : Rat) (rs : List Char) :
    parseJson (f + 1) (floatTwoDec t ++ '\x7d' :: rs) =
      some (Json.jnum (floatTwoDec t), '\x7d' :: rs) := by
  obtain ⟨c, s0, heq, hstart, hall⟩ := floatTwoDec_shape t
  have hc : numChar c = true := hall c (by simp)
  have h1 : c ≠ '"' := by intro h; rw [h] at hc; exact absurd hc (by decide)
  have h2 : c ≠ '[' := by intro h; rw [h] at hc; exact absurd hc (by decide)
  have h3 : c ≠ '\x7b' := by intro h; rw [h] at hc; exact absurd hc (by decide)
  have htw := takeWhile_append_all numChar (c :: s0) '\x7d' rs hall (by decide)
  have htw1 : List.takeWhile numChar (c :: (s0 ++ '\x7d' :: rs)) = c :: s0 := by
    rw [← List.cons_append]
    exact htw.1
  have htw2 : List.dropWhile numChar (c :: (s0 ++ '\x7d' :: rs)) = '\x7d' :: rs := by
    rw [← List.cons_append]
    exact htw.2
  rw [heq, List.cons_append]
  simp [parseJson, h1, h2, h3, hstart, htw1, htw2]

/-- The text-only payload, re-associated into parse order. -/
lemma buildPayload_shape (s m p : List Char) (t : Rat) :
    buildPayload s m p t [] [] =
    '\x7b' :: '\"' :: 'm' :: 'o' :: 'd' :: 'e' :: 'l' :: '\"' :: ':' :: '\"' ::
      (m ++
      ('\"' :: ',' :: '\"' :: 'm' :: 'e' :: 's' :: 's' :: 'a' :: 'g' :: 'e' :: 's' :: '\"' :: ':' :: '[' :: '\x7b' :: '\"' :: 'r' :: 'o' :: 'l' :: 'e' :: '\"' :: ':' :: '\"' :: 's' :: 'y' :: 's' :: 't' :: 'e' :: 'm' :: '\"' :: ',' :: '\"' :: 'c' :: 'o' :: 'n' :: 't' :: 'e' :: 'n' :: 't' :: '\"' :: ':' :: '\"' ::
      (p ++
      ('\"' :: '\x7d' :: ',' :: '\x7b' :: '\"' :: 'r' :: 'o' :: 'l' :: 'e' :: '\"' :: ':' :: '\"' :: 'u' :: 's' :: 'e' :: 'r' :: '\"' :: ',' :: '\"' :: 'c' :: 'o' :: 'n' :: 't' :: 'e' :: 'n' :: 't' :: '\"' :: ':' :: '[' :: '\x7b' :: '\"' :: 't' :: 'y' :: 'p' :: 'e' :: '\"' :: ':' :: '\"' :: 't' :: 'e' :: 'x' :: 't' :: '\"' :: ',' :: '\"' :: 't' :: 'e' :: 'x' :: 't' :: '\"' :: ':' :: '\"' ::
      (s ++
      ('\"' :: '\x7d' :: ']' :: '\x7d' :: ']' :: ',' :: '\"' :: 't' :: 'e' :: 'm' :: 'p' :: 'e' :: 'r' :: 'a' :: 't' :: 'u' :: 'r' :: 'e' :: '\"' :: ':' ::
      (floatTwoDec t ++ ('\x7d' :: [])))))))) := by
  rw [buildPayload, if_neg (by simp)]
  simp only [List.append_assoc, List.nil_append]
  rfl

/-- Symbolic execution of the parser over the whole text-only payload: for
any sufficient fuel, parsing consumes it entirely and returns the expected
document. -/
lemma parseJson_payload (f : Nat) (s m p : List Char) (t : Rat)
    (hs : SafeStr s) (hm : SafeStr m) (hp : SafeStr p) :
    parseJson (f  + 1 + 1 + 1 + 1 + 1 + 1 + 1 + 1 + 1 + 1 + 1 + 1 + 1 + 1 + 1 + 1 + 1 + 1 + 1 + 1) (buildPayload s m p t [] []) =
      some (payloadAst s m p t, []) := by
  rw [buildPayload_shape]
  simp [parseJson.eq_3, parseArrayBody.eq_3, parseArrayTail.eq_3,
    parseObjectBody.eq_3, parseObjectTail.eq_3, parseField.eq_3,
    parseStringBody.eq_2, parseStringBody_safe s hs,
    parseStringBody_safe m hm, parseStringBody_safe p hp, parseJson_float,
    payloadAst]

/-- C9 (amended): for a text-only payload whose input text, model id and
system prompt contain no raw quote or backslash (the source interpolates
them into the JSON template without escaping), parsing the constructed JSON
succeeds and yields exactly the expected document; in particular
`messages[1].content` is the one-element array holding the text entry — no
`image_url` entry is present. -/
theorem buildPayload_textRoundTrip (s m p : List Char) (t : Rat)
    (hs : SafeStr s) (hm : SafeStr m) (hp : SafeStr p) :
    deserializeJson (buildPayload s m p t [] []) = some (payloadAst s m p t) ∧
      contentOfSecondMessage (payloadAst s m p t) =
        some (Json.jarr [Json.jobj [("type".toList, Json.jstr ("text".toList)),
          ("text".toList, Json.jstr s)]]) := by
  constructor
  · rw [deserializeJson, show (64 : Nat) = 44 + 1 + 1 + 1 + 1 + 1 + 1 + 1 + 1 + 1 + 1 + 1 + 1 + 1 + 1 + 1 + 1 + 1 + 1 + 1 + 1 from rfl,
      parseJson_payload 44 s m p t hs hm hp]
  · rfl

/-- Counterexample to C9 as stated: with the one-character input text `"`
(a raw quote) the constructed JSON is malformed — parsing fails outright, so
no `messages[1].content` is produced at all. -/
theorem buildPayload_textRoundTrip_counterexample :
    deserializeJson (buildPayload ('"' :: []) ("m".toList) ("p".toList) 0 [] []) =
        none ∧
      (deserializeJson (buildPayload ('"' :: []) ("m".toList) ("p".toList) 0
          [] [])).bind contentOfSecondMessage = none :=
  ⟨rfl, rfl⟩

/-- Witness for C9 at the spec's round-trip example: text `"hi"`, model
`"m"`, prompt `"p"`, temperature `0.5`. -/
theorem buildPayload_textRoundTrip_witness :
    (∀ c ∈ "hi".toList, c ≠ '"' ∧ c ≠ '\\') ∧
      (deserializeJson (buildPayload ("hi".toList) ("m".toList) ("p".toList)
          (1 / 2) [] []) =
        some (payloadAst ("hi".toList) ("m".toList) ("p".toList) (1 / 2)) ∧
      contentOfSecondMessage (payloadAst ("hi".toList) ("m".toList)
          ("p".toList) (1 / 2)) =
        some (Json.jarr [Json.jobj [("type".toList, Json.jstr ("text".toList)),
          ("text".toList, Json.jstr ("hi".toList))]])) :=
  ⟨by decide, buildPayload_textRoundTrip ("hi".toList) ("m".toList)
    ("p".toList) (1 / 2) (by simp [SafeStr])
    (by simp [SafeStr]) (by simp [SafeStr])⟩
